import Mathlib

/-!
Shallow embedding of the bindex derived-index engine.

The engine (src/lib/indexdb.js, class IndexDB) keeps a key-value store
synchronized with a blockchain source.  Relevant key families
(src/lib/layout.js): O -> network magic flag, h -> current tip
(serialized Block Metadata), t[hash] -> transaction record by hash.
Hashes are modelled as natural numbers; the store is modelled with one
field per key family, which is faithful because the byte-level key
families are disjoint by construction.

The facade (src/lib/bindex.js, class Plugin) forwards read operations to
the engine.  Operations are embedded as pure state transformers
returning an outcome (ok or a thrown error) together with the state at
the moment the operation finished or threw; a JavaScript throw before
any batch write leaves the state argument unchanged.
-/

set_option autoImplicit false

namespace Bindex

/-- Modelled from the spec: the Block Metadata record of src/lib/records.js,
which is not under src/.  Spec section 3: a compact (height, hash) tip marker
created from a chain entry and persisted as the single h record. -/
structure BlockMeta where
  height : Nat
  hash : Nat
  deriving DecidableEq

/-- A chain entry: the chain source's record of one block's position
(height, hash, previous-block hash) on its best chain (spec glossary). -/
structure Entry where
  height : Nat
  hash : Nat
  prevBlock : Nat
  deriving DecidableEq

/-- A transaction, identified by its hash (only the hash is read by the
engine: indexdb.js lines 128-131 and 174-176). -/
structure Tx where
  hash : Nat
  deriving DecidableEq

/-- A block as consumed by the engine: its hash, the height and
previous-block hash the rollback loop reads (indexdb.js lines 392-398),
and its transaction list. -/
structure Block where
  hash : Nat
  height : Nat
  prevBlock : Nat
  txs : List Tx
  deriving DecidableEq

/-- The persisted transaction record: TXMeta.fromTX(tx, entry, i)
captures the transaction, its containing block and its index
(indexdb.js line 130; spec section 3, Transaction Record). -/
structure TXRecord where
  txHash : Nat
  blockHash : Nat
  blockHeight : Nat
  index : Nat
  deriving DecidableEq

/-- TXMeta.fromTX(tx, entry, i) as stored by indexBlock. -/
def TXMeta.fromTX (tx : Tx) (entry : Entry) (i : Nat) : TXRecord :=
  { txHash := tx.hash, blockHash := entry.hash, blockHeight := entry.height, index := i }

/-- BlockMeta.fromEntry(entry): project an entry to its (height, hash) pair. -/
def BlockMeta.fromEntry (e : Entry) : BlockMeta :=
  { height := e.height, hash := e.hash }

/-- Point lookup in the t[hash] key family (db.get of layout.t.build(hash)). -/
def lookupTx : List (Nat × TXRecord) → Nat → Option TXRecord
  | [], _ => none
  | p :: ps, h => if p.1 = h then some p.2 else lookupTx ps h

/-- Deletion in the t[hash] key family (b.del of layout.t.build(hash)). -/
def removeTx : List (Nat × TXRecord) → Nat → List (Nat × TXRecord)
  | [], _ => []
  | p :: ps, h => if p.1 = h then removeTx ps h else p :: removeTx ps h

/-- The key-value store, one field per key family of src/lib/layout.js:
O (network magic), h (tip record), t (transaction records). -/
structure Store where
  magic : Option Nat
  tipRec : Option BlockMeta
  txs : List (Nat × TXRecord)
  deriving DecidableEq

/-- Batch put of a transaction record (b.put(layout.t.build(hash), meta.toRaw())).
The newest pair shadows older ones under lookupTx, matching overwrite semantics. -/
def Store.putTx (s : Store) (h : Nat) (r : TXRecord) : Store :=
  { s with txs := (h, r) :: s.txs }

/-- Batch delete of a transaction record (b.del(layout.t.build(hash))). -/
def Store.delTx (s : Store) (h : Nat) : Store :=
  { s with txs := removeTx s.txs h }

/-- Point read of a transaction record. -/
def Store.getTx (s : Store) (h : Nat) : Option TXRecord :=
  lookupTx s.txs h

/-- Engine state: the store plus the in-memory tip (this.tip). -/
structure IdbState where
  store : Store
  tip : BlockMeta
  deriving DecidableEq

/-- Errors thrown by the engine.  outOfFuel is not an engine error: it marks
exhaustion of the explicit bound put on the unbounded for(;;) loop of
rollback (indexdb.js line 390), which the theorems below never reach. -/
inductive Err where
  | genesisDisconnect
  | heightMismatch
  | rollbackFuture
  | networkMismatch
  | assertFailed
  | typeError
  | nullDeref
  | outOfFuel
  deriving DecidableEq

/-- Modelled from the spec: the chain source client capability set of spec
section 4.2 (src/lib/nodeclient.js and src/lib/nullclient.js are not under
src/).  getEntry is keyed by height as used by indexdb.js (lines 165, 337,
385); getBlock is keyed by block hash; tip is the remote chain tip returned
by getTip, which indexdb.js asserts to be present (line 321). -/
structure Client where
  getEntry : Nat → Option Entry
  getBlock : Nat → Option Block
  tip : BlockMeta

/-- IndexDB.setTip (indexdb.js lines 263-270): persist the tip under the h
key, then update the in-memory tip. -/
def setTip (st : IdbState) (tip : BlockMeta) : IdbState :=
  { store := { st.store with tipRec := some tip }, tip := tip }

/-- The batch built by indexBlock: one put per transaction of the block,
with its position index (indexdb.js lines 125-132). -/
def writeTxRecords (s : Store) (entry : Entry) (block : Block) : Store :=
  block.txs.enum.foldl (fun s p => s.putTx p.2.hash (TXMeta.fromTX p.2 entry p.1)) s

/-- The batch built by unindexBlock: one delete per transaction of the block
(indexdb.js lines 171-177). -/
def deleteTxRecords (s : Store) (block : Block) : Store :=
  block.txs.foldl (fun s tx => s.delTx tx.hash) s

/-- IndexDB.indexBlock (indexdb.js lines 112-139): a block below the current
tip height is a logged no-op; otherwise write all transaction records as one
batch and persist the entry as the new tip via setTip. -/
def indexBlock (st : IdbState) (entry : Entry) (block : Block) :
    Except Err Unit × IdbState :=
  let tip := BlockMeta.fromEntry entry
  if tip.height < st.tip.height then
    (Except.ok (), st)
  else
    (Except.ok (), setTip { st with store := writeTxRecords st.store entry block } tip)

/-- IndexDB.unindexBlock (indexdb.js lines 149-184): genesis disconnection is
fatal; a block above the current tip height is a logged no-op; a height not
equal to the tip height is fatal; otherwise fetch the previous entry from the
client (assert(prevEntry) at line 166), delete the block's transaction
records as one batch and persist the previous entry as the new tip. -/
def unindexBlock (client : Client) (st : IdbState) (entry : Entry) (block : Block) :
    Except Err Unit × IdbState :=
  let tip := BlockMeta.fromEntry entry
  if tip.height = 0 then
    (Except.error Err.genesisDisconnect, st)
  else if st.tip.height < tip.height then
    (Except.ok (), st)
  else if tip.height ≠ st.tip.height then
    (Except.error Err.heightMismatch, st)
  else
    match client.getEntry (tip.height - 1) with
    | none => (Except.error Err.assertFailed, st)
    | some prevEntry =>
      (Except.ok (),
        setTip { st with store := deleteTxRecords st.store block }
          (BlockMeta.fromEntry prevEntry))

/-- The for(;;) loop of IndexDB.rollback (indexdb.js lines 389-399): fetch
the block at the hash we are positioned at; break when no block is found or
the block is at the target height; otherwise unindex it, passing the entry
fetched at the TARGET height (this is what the source passes at line 396),
and step to the block's previous-block hash.  fuel bounds the unbounded
source loop. -/
def rollbackLoop (client : Client) (entry : Entry) (height : Nat) :
    Nat → IdbState → Nat → Except Err Unit × IdbState
  | 0, st, _ => (Except.error Err.outOfFuel, st)
  | Nat.succ fuel, st, prev =>
    match client.getBlock prev with
    | none => (Except.ok (), st)
    | some block =>
      if block.height = height then
        (Except.ok (), st)
      else
        match unindexBlock client st entry block with
        | (Except.ok _, st1) => rollbackLoop client entry height fuel st1 block.prevBlock
        | (Except.error e, st1) => (Except.error e, st1)

/-- IndexDB.rollback (indexdb.js lines 372-404): a height above the tip is
fatal; the tip height itself is a logged no-op; otherwise fetch the entry at
the target height (BlockMeta.fromEntry on a null entry would throw, modelled
as nullDeref), walk backward from the current tip's hash unindexing blocks,
then persist the target entry as the new tip. -/
def rollback (client : Client) (fuel : Nat) (st : IdbState) (height : Nat) :
    Except Err Unit × IdbState :=
  if st.tip.height < height then
    (Except.error Err.rollbackFuture, st)
  else if height = st.tip.height then
    (Except.ok (), st)
  else
    match client.getEntry height with
    | none => (Except.error Err.nullDeref, st)
    | some entry =>
      match rollbackLoop client entry height fuel st st.tip.hash with
      | (Except.ok _, st1) => (Except.ok (), setTip st1 (BlockMeta.fromEntry entry))
      | (Except.error e, st1) => (Except.error e, st1)

/-- IndexDB.getMeta (indexdb.js lines 412-419): point read of the
transaction record, null when absent.  Reads only; no store mutation
appears in the source. -/
def getMeta (st : IdbState) (hash : Nat) : Option TXRecord :=
  st.store.getTx hash

/-- One step of the scan loop of IndexDB.scan (indexdb.js lines 333-342):
for each height fetch the entry (reading entry.hash on a null entry would
throw, modelled as nullDeref), fetch the block by the entry's hash (a null
block would throw inside indexBlock, modelled as nullDeref), and run
indexBlock. -/
def scanSteps (client : Client) : List Nat → IdbState → Except Err Unit × IdbState
  | [], st => (Except.ok (), st)
  | h :: rest, st =>
    match client.getEntry h with
    | none => (Except.error Err.nullDeref, st)
    | some entry =>
      match client.getBlock entry.hash with
      | none => (Except.error Err.nullDeref, st)
      | some block =>
        match indexBlock st entry block with
        | (Except.ok _, st1) => scanSteps client rest st1
        | (Except.error e, st1) => (Except.error e, st1)

/-- IndexDB.scan (indexdb.js lines 314-343): default the start height to the
current tip height, clamp it to the remote tip height, rollback to it, then
index heights tip+1 .. remote tip strictly sequentially through indexBlock. -/
def scan (client : Client) (fuel : Nat) (st : IdbState) (heightOpt : Option Nat) :
    Except Err Unit × IdbState :=
  let height := heightOpt.getD st.tip.height
  let rtip := client.tip
  let height := if rtip.height < height then rtip.height else height
  match rollback client fuel st height with
  | (Except.ok _, st1) =>
      scanSteps client (List.range' (st1.tip.height + 1) (rtip.height - st1.tip.height)) st1
  | (Except.error e, st1) => (Except.error e, st1)

/-- IndexDB.getTip (indexdb.js lines 351-364): read the persisted tip; when
absent, persist the in-memory tip and return it. -/
def getTipOp (st : IdbState) : IdbState × BlockMeta :=
  match st.store.tipRec with
  | none => (setTip st st.tip, st.tip)
  | some t => (st, t)

/-- IndexDB.syncNode followed by syncChain (indexdb.js lines 277-305): load
the persisted tip into memory, then scan from it.  syncFilter only pushes the
bloom filter to the client and touches no store state. -/
def syncNode (client : Client) (fuel : Nat) (st : IdbState) :
    Except Err Unit × IdbState :=
  let p := getTipOp st
  scan client fuel { p.1 with tip := p.2 } none

/-- IndexDB.verifyNetwork (indexdb.js lines 191-206): when no magic record
exists, write the configured magic; otherwise a stored magic different from
the configured one is fatal. -/
def verifyNetwork (magic : Nat) (st : IdbState) : Except Err Unit × IdbState :=
  match st.store.magic with
  | none => (Except.ok (), { st with store := { st.store with magic := some magic } })
  | some m =>
    if m = magic then (Except.ok (), st)
    else (Except.error Err.networkMismatch, st)

/-- IndexDB.open (indexdb.js lines 213-218) restricted to its effects on the
engine-owned records: db.open and the schema-version verify touch only the
store engine's own bookkeeping (out of scope per spec sections 1 and 6), and
connect merely opens the client, whose events drive any indexing strictly
after open returns; the store effect of open is exactly verifyNetwork. -/
def openIdb (magic : Nat) (st : IdbState) : Except Err Unit × IdbState :=
  verifyNetwork magic st

/-- Plugin.getMeta (src/lib/bindex.js lines 162-164): forwards to
IndexDB.getMeta, a pure read. -/
def Plugin.getMeta (st : IdbState) (hash : Nat) : Except Err (Option TXRecord) :=
  Except.ok (Bindex.getMeta st hash)

/-- Plugin.getTX (src/lib/bindex.js lines 172-174) calls this.idb.getTX, but
class IndexDB (src/lib/indexdb.js) defines no getTX method, so the call
throws a TypeError on every input. -/
def Plugin.getTX (_ : IdbState) (_ : Nat) : Except Err (Option TXRecord) :=
  Except.error Err.typeError

/-- Plugin.hasTX (bindex.js lines 181-183) calls this.idb.hasTX, undefined
on IndexDB: TypeError on every input. -/
def Plugin.hasTX (_ : IdbState) (_ : Nat) : Except Err Bool :=
  Except.error Err.typeError

/-- Plugin.getCoinsByAddress (bindex.js lines 191-193) calls
this.idb.getCoinsByAddress, undefined on IndexDB: TypeError on every input. -/
def Plugin.getCoinsByAddress (_ : IdbState) (_ : List Nat) : Except Err (List TXRecord) :=
  Except.error Err.typeError

/-- Plugin.getHashesByAddress (bindex.js lines 201-203) calls
this.idb.getHashesByAddress, undefined on IndexDB: TypeError on every input. -/
def Plugin.getHashesByAddress (_ : IdbState) (_ : List Nat) : Except Err (List Nat) :=
  Except.error Err.typeError

/-- Plugin.getTXByAddress (bindex.js lines 211-213) calls
this.idb.getTXByAddress, undefined on IndexDB: TypeError on every input. -/
def Plugin.getTXByAddress (_ : IdbState) (_ : List Nat) : Except Err (List TXRecord) :=
  Except.error Err.typeError

/-- Plugin.getMetaByAddress (bindex.js lines 221-223) calls
this.idb.getMetaByAddress, undefined on IndexDB: TypeError on every input. -/
def Plugin.getMetaByAddress (_ : IdbState) (_ : List Nat) : Except Err (List TXRecord) :=
  Except.error Err.typeError

/-!
Concrete chain fixtures.  Height h has block hash 100 + h and previous
hash 99 + h; the block at height h (for h ≥ 1) carries one unique
transaction with hash 10 + h, matching the spec's concrete scenarios.
-/

/-- Entry of the fixture chain at a given height. -/
def entryAt (h : Nat) : Entry :=
  { height := h, hash := 100 + h, prevBlock := 99 + h }

/-- Block of the fixture chain at a given height, with one unique transaction. -/
def blockAt (h : Nat) : Block :=
  { hash := 100 + h, height := h, prevBlock := 99 + h, txs := [{ hash := 10 + h }] }

/-- Fixture client serving the chain up to height 5. -/
def chainClient : Client :=
  { getEntry := fun h => if h ≤ 5 then some (entryAt h) else none,
    getBlock := fun hs =>
      if 100 ≤ hs then (if hs ≤ 105 then some (blockAt (hs - 100)) else none) else none,
    tip := { height := 5, hash := 105 } }

/-- Fixture client whose best chain ends at height 2. -/
def clientFwd : Client :=
  { getEntry := fun h => if h ≤ 2 then some (entryAt h) else none,
    getBlock := fun hs =>
      if 100 ≤ hs then (if hs ≤ 102 then some (blockAt (hs - 100)) else none) else none,
    tip := { height := 2, hash := 102 } }

/-- Fixture client after a reorg: its best chain ends at height 1, while the
block formerly at height 2 is still fetchable by hash (a chain source keeps
reorged blocks on disk; only entry lookups are main-chain filtered). -/
def clientR1 : Client :=
  { getEntry := fun h => if h ≤ 1 then some (entryAt h) else none,
    getBlock := fun hs =>
      if 100 ≤ hs then (if hs ≤ 102 then some (blockAt (hs - 100)) else none) else none,
    tip := { height := 1, hash := 101 } }

/-- Fresh engine state at the fixture genesis, with the tip persisted. -/
def st0 : IdbState :=
  { store := { magic := none, tipRec := some { height := 0, hash := 100 }, txs := [] },
    tip := { height := 0, hash := 100 } }

/-- State after indexing fixture heights 1 and 2 from st0. -/
def stAfter2 : IdbState :=
  (List.range' 1 2).foldl (fun st h => (indexBlock st (entryAt h) (blockAt h)).2) st0

/-- State after indexing fixture heights 1 through 5 from st0. -/
def stAfter5 : IdbState :=
  (List.range' 1 5).foldl (fun st h => (indexBlock st (entryAt h) (blockAt h)).2) st0

/-!
Helper lemmas.
-/

@[simp]
theorem fromEntry_height (e : Entry) : (BlockMeta.fromEntry e).height = e.height := rfl

@[simp]
theorem fromEntry_hash (e : Entry) : (BlockMeta.fromEntry e).hash = e.hash := rfl

@[simp]
theorem setTip_tip (st : IdbState) (t : BlockMeta) : (setTip st t).tip = t := rfl

@[simp]
theorem setTip_getTx (st : IdbState) (t : BlockMeta) (h : Nat) :
    (setTip st t).store.getTx h = st.store.getTx h := rfl

theorem lookupTx_removeTx_self (l : List (Nat × TXRecord)) (h : Nat) :
    lookupTx (removeTx l h) h = none := by
  induction l with
  | nil => rfl
  | cons p ps ih =>
    by_cases hp : p.1 = h
    · simp [removeTx, hp, ih]
    · simp [removeTx, lookupTx, hp, ih]

theorem lookupTx_removeTx_none (l : List (Nat × TXRecord)) (h k : Nat)
    (hn : lookupTx l h = none) : lookupTx (removeTx l k) h = none := by
  induction l with
  | nil => rfl
  | cons p ps ih =>
    unfold lookupTx at hn
    by_cases hp : p.1 = h
    · rw [if_pos hp] at hn
      cases hn
    · rw [if_neg hp] at hn
      by_cases hk : p.1 = k
      · simpa [removeTx, hk] using ih hn
      · simpa [removeTx, hk, lookupTx, hp] using ih hn

theorem getTx_delTxFold_none (txl : List Tx) (s : Store) (h : Nat)
    (hn : s.getTx h = none) :
    (txl.foldl (fun s tx => s.delTx tx.hash) s).getTx h = none := by
  induction txl generalizing s with
  | nil => exact hn
  | cons t ts ih =>
    exact ih (s.delTx t.hash) (lookupTx_removeTx_none s.txs h t.hash hn)

theorem getTx_delTxFold_mem (txl : List Tx) (s : Store) (tx : Tx) (htx : tx ∈ txl) :
    (txl.foldl (fun s tx => s.delTx tx.hash) s).getTx tx.hash = none := by
  induction txl generalizing s with
  | nil => cases htx
  | cons t ts ih =>
    rcases List.mem_cons.mp htx with h1 | h2
    · subst h1
      exact getTx_delTxFold_none ts (s.delTx tx.hash) tx.hash
        (lookupTx_removeTx_self s.txs tx.hash)
    · exact ih (s.delTx t.hash) h2

theorem getTx_deleteTxRecords (block : Block) (s : Store) (tx : Tx)
    (htx : tx ∈ block.txs) :
    (deleteTxRecords s block).getTx tx.hash = none :=
  getTx_delTxFold_mem block.txs s tx htx

/-- The connect/disconnect round trip of spec section 8: indexBlock on a
block followed immediately by unindexBlock on the same entry and block. -/
def roundTrip (client : Client) (st : IdbState) (entry : Entry) (block : Block) :
    Except Err Unit × IdbState :=
  match indexBlock st entry block with
  | (Except.ok _, st1) => unindexBlock client st1 entry block
  | (Except.error e, st1) => (Except.error e, st1)

/-- Fixture for the round-trip counterexample: tip at height 1 (hash 101)
with the transaction of fixture block 1 indexed and the tip persisted. -/
def stC4 : IdbState :=
  { store := { magic := none, tipRec := some { height := 1, hash := 101 },
               txs := [(11, TXMeta.fromTX { hash := 11 } (entryAt 1) 0)] },
    tip := { height := 1, hash := 101 } }

/-- A competing block at the same height as the stC4 tip, carrying one
transaction with hash 21. -/
def blockB : Block :=
  { hash := 200, height := 1, prevBlock := 100, txs := [{ hash := 21 }] }

/-- The chain entry of blockB. -/
def entryB : Entry :=
  { height := 1, hash := 200, prevBlock := 100 }

/-- Fixture store initialized under network magic 7. -/
def stMagic : IdbState :=
  { store := { magic := some 7, tipRec := none, txs := [] },
    tip := { height := 0, hash := 0 } }

/-- The tip consistency invariant: the in-memory tip equals the Block
Metadata persisted under the h key. -/
def tipOk (st : IdbState) : Prop :=
  st.store.tipRec = some st.tip

theorem tipOk_setTip (st : IdbState) (t : BlockMeta) : tipOk (setTip st t) := rfl

/-- Success path of unindexBlock: at a nonzero height equal to the current
tip height, with the previous entry available, it deletes the block's
transaction records and persists the previous entry as the new tip. -/
theorem unindexBlock_success (client : Client) (st : IdbState) (entry : Entry)
    (block : Block) (pe : Entry)
    (h0 : entry.height ≠ 0)
    (he : entry.height = st.tip.height)
    (hpe : client.getEntry (entry.height - 1) = some pe) :
    unindexBlock client st entry block =
      (Except.ok (), setTip { st with store := deleteTxRecords st.store block }
        (BlockMeta.fromEntry pe)) := by
  simp only [unindexBlock, fromEntry_height]
  rw [if_neg h0, if_neg (by omega), if_neg (by omega), hpe]

theorem tipOk_indexBlock (st : IdbState) (entry : Entry) (block : Block)
    (h : tipOk st) : tipOk (indexBlock st entry block).2 := by
  by_cases hc : entry.height < st.tip.height
  · simpa [indexBlock, hc] using h
  · simpa [indexBlock, hc] using tipOk_setTip
      { st with store := writeTxRecords st.store entry block } (BlockMeta.fromEntry entry)

theorem tipOk_unindexBlock (client : Client) (st : IdbState) (entry : Entry)
    (block : Block) (h : tipOk st) : tipOk (unindexBlock client st entry block).2 := by
  by_cases h0 : entry.height = 0
  · simpa [unindexBlock, h0] using h
  by_cases h1 : st.tip.height < entry.height
  · simpa [unindexBlock, h0, h1] using h
  by_cases h2 : entry.height = st.tip.height
  · rw [h2] at h0
    cases hpe : client.getEntry (st.tip.height - 1) with
    | none => simpa [unindexBlock, h0, h1, h2, hpe] using h
    | some pe =>
      simpa [unindexBlock, h0, h1, h2, hpe] using tipOk_setTip
        { st with store := deleteTxRecords st.store block } (BlockMeta.fromEntry pe)
  · simpa [unindexBlock, h0, h1, h2] using h

theorem tipOk_rollbackLoop (client : Client) (entry : Entry) (height : Nat)
    (fuel : Nat) (st : IdbState) (prev : Nat) (h : tipOk st) :
    tipOk (rollbackLoop client entry height fuel st prev).2 := by
  induction fuel generalizing st prev with
  | zero => exact h
  | succ n ih =>
    unfold rollbackLoop
    cases hb : client.getBlock prev with
    | none => simpa [hb] using h
    | some block =>
      by_cases hh : block.height = height
      · simpa [hb, hh] using h
      · rcases hu : unindexBlock client st entry block with ⟨res, st1⟩
        have h1 : tipOk st1 := by
          have h2 := tipOk_unindexBlock client st entry block h
          rw [hu] at h2
          exact h2
        cases res with
        | ok u => simpa [hb, hh, hu] using ih st1 block.prevBlock h1
        | error e => simpa [hb, hh, hu] using h1

theorem tipOk_rollback (client : Client) (fuel : Nat) (st : IdbState) (height : Nat)
    (h : tipOk st) : tipOk (rollback client fuel st height).2 := by
  by_cases h1 : st.tip.height < height
  · simpa [rollback, h1] using h
  by_cases h2 : height = st.tip.height
  · simpa [rollback, h1, h2] using h
  cases he : client.getEntry height with
  | none => simpa [rollback, h1, h2, he] using h
  | some entry =>
    rcases hl : rollbackLoop client entry height fuel st st.tip.hash with ⟨res, st1⟩
    have h3 : tipOk st1 := by
      have h4 := tipOk_rollbackLoop client entry height fuel st st.tip.hash h
      rw [hl] at h4
      exact h4
    cases res with
    | ok u =>
      simpa [rollback, h1, h2, he, hl] using tipOk_setTip st1 (BlockMeta.fromEntry entry)
    | error e => simpa [rollback, h1, h2, he, hl] using h3

/-!
Claim theorems.
-/

/-- Claim C1 (code bug): after indexing fixture heights 1..5 (one unique
transaction each) the tip is at height 5 and all five transactions are
found; the claim says rollback(2) then leaves tip height 2 with the
transactions of heights 3..5 deleted, but the engine instead throws the
height-mismatch error on the first backward step and leaves the state
unchanged, because the rollback loop hands unindexBlock the entry fetched
at the TARGET height (indexdb.js line 396) while unindexBlock demands an
entry at exactly the current tip height (line 162). -/
theorem rollback_multi_step_evaluation :
    stAfter5.tip = { height := 5, hash := 105 } ∧
    (getMeta stAfter5 11).isSome = true ∧
    (getMeta stAfter5 12).isSome = true ∧
    (getMeta stAfter5 13).isSome = true ∧
    (getMeta stAfter5 14).isSome = true ∧
    (getMeta stAfter5 15).isSome = true ∧
    rollback chainClient 10 stAfter5 2 = (Except.error Err.heightMismatch, stAfter5) :=
  ⟨rfl, rfl, rfl, rfl, rfl, rfl, rfl⟩

/-- Claim C2 (code bug): on a hash absent from the index, the facade's
getMeta does return ok-null without mutating anything, but every other
facade read operation throws a TypeError for every input, because
class IndexDB defines none of getTX, hasTX, getCoinsByAddress,
getHashesByAddress, getTXByAddress, getMetaByAddress. -/
theorem facade_not_found_evaluation :
    Plugin.getMeta st0 7 = Except.ok none ∧
    Plugin.getTX st0 7 = Except.error Err.typeError ∧
    Plugin.hasTX st0 7 = Except.error Err.typeError ∧
    Plugin.getCoinsByAddress st0 [7] = Except.error Err.typeError ∧
    Plugin.getHashesByAddress st0 [7] = Except.error Err.typeError ∧
    Plugin.getTXByAddress st0 [7] = Except.error Err.typeError ∧
    Plugin.getMetaByAddress st0 [7] = Except.error Err.typeError :=
  ⟨rfl, rfl, rfl, rfl, rfl, rfl, rfl⟩

/-- Claim C3 (code bug): a forward sync (remote tip 2, local tip 0) does
index heights 1..2 sequentially through indexBlock and ends with tip
height 2 as the claim says; but on a connect with remote tip height 1
below the local tip height 2 the engine's rollback(1) throws the
height-mismatch error (same slip as in C1), so the sync aborts with the
tip still at 2 instead of rolling back to 1 and completing. -/
theorem syncNode_sync_evaluation :
    (syncNode clientFwd 10 st0).1 = Except.ok () ∧
    (syncNode clientFwd 10 st0).2.tip = { height := 2, hash := 102 } ∧
    getMeta (syncNode clientFwd 10 st0).2 11 = some (TXMeta.fromTX { hash := 11 } (entryAt 1) 0) ∧
    getMeta (syncNode clientFwd 10 st0).2 12 = some (TXMeta.fromTX { hash := 12 } (entryAt 2) 0) ∧
    (syncNode clientR1 10 stAfter2).1 = Except.error Err.heightMismatch ∧
    (syncNode clientR1 10 stAfter2).2 = stAfter2 :=
  ⟨rfl, rfl, rfl, rfl, rfl, rfl⟩

/-- Claim C4 counterexample: a block at the same height as the current tip
is indexable (indexBlock only rejects strictly lower heights), yet indexing
it and immediately unindexing it moves the tip to the previous height
instead of restoring the pre-index tip. -/
theorem roundTrip_same_height_counterexample :
    (roundTrip chainClient stC4 entryB blockB).1 = Except.ok () ∧
    (roundTrip chainClient stC4 entryB blockB).2.tip ≠ stC4.tip :=
  ⟨rfl, by decide⟩

/-- Claim C4 (amended): for a block whose height is exactly the current tip
height plus one, when the chain client's entry at the current tip height
projects to the current tip, indexBlock followed immediately by
unindexBlock succeeds, restores the exact pre-index tip, and makes every
transaction hash contained in the block resolve to not-found. -/
theorem roundTrip_next_height (client : Client) (st : IdbState) (entry : Entry)
    (block : Block) (pe : Entry)
    (hh : entry.height = st.tip.height + 1)
    (hpe : client.getEntry st.tip.height = some pe)
    (hmeta : BlockMeta.fromEntry pe = st.tip) :
    (roundTrip client st entry block).1 = Except.ok () ∧
    (roundTrip client st entry block).2.tip = st.tip ∧
    ∀ tx, tx ∈ block.txs → getMeta (roundTrip client st entry block).2 tx.hash = none := by
  have hnlt : ¬ (BlockMeta.fromEntry entry).height < st.tip.height := by
    rw [fromEntry_height, hh]
    omega
  have hidx : indexBlock st entry block =
      (Except.ok (), setTip { st with store := writeTxRecords st.store entry block }
        (BlockMeta.fromEntry entry)) := by
    simp only [indexBlock]
    rw [if_neg hnlt]
  have h0 : entry.height ≠ 0 := by omega
  have he1 : entry.height =
      (setTip { st with store := writeTxRecords st.store entry block }
        (BlockMeta.fromEntry entry)).tip.height := by
    rw [setTip_tip, fromEntry_height]
  have hpe1 : client.getEntry (entry.height - 1) = some pe := by
    rw [hh]
    simpa using hpe
  have hun := unindexBlock_success client
    (setTip { st with store := writeTxRecords st.store entry block }
      (BlockMeta.fromEntry entry)) entry block pe h0 he1 hpe1
  have hrt : roundTrip client st entry block =
      (Except.ok (),
        setTip { (setTip { st with store := writeTxRecords st.store entry block }
            (BlockMeta.fromEntry entry)) with
          store := deleteTxRecords
            (setTip { st with store := writeTxRecords st.store entry block }
              (BlockMeta.fromEntry entry)).store block }
          (BlockMeta.fromEntry pe)) := by
    unfold roundTrip
    rw [hidx]
    exact hun
  refine ⟨by rw [hrt], by rw [hrt, setTip_tip, hmeta], ?_⟩
  intro tx htx
  rw [hrt]
  simp only [getMeta, setTip_getTx]
  exact getTx_deleteTxRecords block _ tx htx

/-- Claim C4 witness: the round trip at fixture height 1 on the fresh state
restores the genesis tip. -/
theorem roundTrip_next_height_witness :
    (roundTrip chainClient st0 (entryAt 1) (blockAt 1)).2.tip = st0.tip :=
  (roundTrip_next_height chainClient st0 (entryAt 1) (blockAt 1) (entryAt 0)
    rfl rfl rfl).2.1

/-- Claim C5: rollback to a height strictly above the current tip height
fails with the future-rollback error and returns the state unchanged (the
source throws before building any batch, indexdb.js lines 373-374). -/
theorem rollback_future_guard (client : Client) (fuel : Nat) (st : IdbState)
    (height : Nat) (hf : st.tip.height < height) :
    rollback client fuel st height = (Except.error Err.rollbackFuture, st) := by
  simp only [rollback]
  rw [if_pos hf]

/-- Claim C5 witness. -/
theorem rollback_future_guard_witness :
    rollback chainClient 1 st0 3 = (Except.error Err.rollbackFuture, st0) :=
  rollback_future_guard chainClient 1 st0 3 (by decide)

/-- Claim C6: rollback to exactly the current tip height is a no-op for any
client, fuel and state: it returns ok and the state unchanged, mutating no
persisted record and leaving the tip as it was (indexdb.js lines 376-379). -/
theorem rollback_noop_at_tip (client : Client) (fuel : Nat) (st : IdbState) :
    rollback client fuel st st.tip.height = (Except.ok (), st) := by
  simp [rollback]

/-- Claim C7: the guards of unindexBlock fire in the source's order: height
zero is the fatal genesis error; a height above the current tip is an ok
no-op returning the state unchanged; a nonzero height below the tip is the
fatal height-mismatch error with the state unchanged; and only at exactly
the tip height does it unindex, deleting the block's transaction records
and persisting the client's previous entry as the new tip. -/
theorem unindexBlock_guard_order (client : Client) (st : IdbState) (entry : Entry)
    (block : Block) :
    (entry.height = 0 →
      unindexBlock client st entry block = (Except.error Err.genesisDisconnect, st)) ∧
    (entry.height ≠ 0 → st.tip.height < entry.height →
      unindexBlock client st entry block = (Except.ok (), st)) ∧
    (entry.height ≠ 0 → entry.height < st.tip.height →
      unindexBlock client st entry block = (Except.error Err.heightMismatch, st)) ∧
    (entry.height ≠ 0 → entry.height = st.tip.height →
      ∀ pe, client.getEntry (entry.height - 1) = some pe →
        unindexBlock client st entry block =
          (Except.ok (), setTip { st with store := deleteTxRecords st.store block }
            (BlockMeta.fromEntry pe))) := by
  refine ⟨?_, ?_, ?_, ?_⟩
  · intro h0
    simp only [unindexBlock, fromEntry_height]
    rw [if_pos h0]
  · intro h0 hlt
    simp only [unindexBlock, fromEntry_height]
    rw [if_neg h0, if_pos hlt]
  · intro h0 hlt
    simp only [unindexBlock, fromEntry_height]
    rw [if_neg h0, if_neg (by omega), if_pos (by omega)]
  · intro h0 he pe hpe
    exact unindexBlock_success client st entry block pe h0 he hpe

/-- Claim C7 witness: disconnecting the fixture genesis block is the fatal
genesis error. -/
theorem unindexBlock_guard_order_witness :
    unindexBlock chainClient st0 (entryAt 0) (blockAt 0) =
      (Except.error Err.genesisDisconnect, st0) :=
  (unindexBlock_guard_order chainClient st0 (entryAt 0) (blockAt 0)).1 rfl

/-- Claim C8: connecting a block whose height is strictly below the current
tip height is an ok no-op: no transaction record is written, the tip is
unchanged, and no error is raised (indexdb.js lines 115-120). -/
theorem indexBlock_low_noop (st : IdbState) (entry : Entry) (block : Block)
    (h : entry.height < st.tip.height) :
    indexBlock st entry block = (Except.ok (), st) := by
  simp only [indexBlock, fromEntry_height]
  rw [if_pos h]

/-- Claim C8 witness: replaying fixture height 1 after height 2 is indexed
leaves the state untouched. -/
theorem indexBlock_low_noop_witness :
    indexBlock stAfter2 (entryAt 1) (blockAt 1) = (Except.ok (), stAfter2) :=
  indexBlock_low_noop stAfter2 (entryAt 1) (blockAt 1) (by decide)

/-- Claim C9: opening a store whose magic record holds M1 with an engine
configured for a different magic M2 fails with the network-mismatch error
and returns the state unchanged (no record modified, no block indexed);
opening a store with no magic record writes the configured magic once and
changes nothing else. -/
theorem open_network_guard (m1 m2 : Nat) (st : IdbState) :
    (st.store.magic = some m1 → m2 ≠ m1 →
      openIdb m2 st = (Except.error Err.networkMismatch, st)) ∧
    (st.store.magic = none →
      openIdb m2 st = (Except.ok (), { st with store := { st.store with magic := some m2 } })) := by
  constructor
  · intro hm hne
    simp only [openIdb, verifyNetwork, hm]
    rw [if_neg (fun h => hne h.symm)]
  · intro hm
    simp only [openIdb, verifyNetwork, hm]

/-- Claim C9 witness: a store initialized under magic 7 refuses to open
under magic 8. -/
theorem open_network_guard_witness :
    openIdb 8 stMagic = (Except.error Err.networkMismatch, stMagic) :=
  (open_network_guard 7 8 stMagic).1 rfl (by decide)

/-- Claim C10: if the in-memory tip matches the Block Metadata persisted
under the h key, then after indexBlock, unindexBlock or rollback (whether
they complete or throw) the resulting state still satisfies that match;
within these operations every tip change goes through setTip, which
establishes the match unconditionally. -/
theorem tip_matches_persisted (client : Client) (fuel : Nat) (st : IdbState)
    (entry : Entry) (block : Block) (height : Nat) (h : tipOk st) :
    tipOk (indexBlock st entry block).2 ∧
    tipOk (unindexBlock client st entry block).2 ∧
    tipOk (rollback client fuel st height).2 :=
  ⟨tipOk_indexBlock st entry block h, tipOk_unindexBlock client st entry block h,
    tipOk_rollback client fuel st height h⟩

/-- Claim C10 witness: the invariant holds after indexing fixture height 1
on the fresh state. -/
theorem tip_matches_persisted_witness :
    tipOk (indexBlock st0 (entryAt 1) (blockAt 1)).2 :=
  (tip_matches_persisted chainClient 5 st0 (entryAt 1) (blockAt 1) 0 rfl).1

end Bindex
